import Mathlib

/-!
Verification of the Grok API image generator script.

This file is a shallow embedding of `grok_image_generator.py`.  Network and
filesystem effects are made explicit: each HTTP call's outcome is a parameter
of the embedded function, and the functions return, besides the Python return
value, a trace of the requests issued, the files written and the messages
printed.  Python exceptions that escape a function are modelled by the
`PyResult.exn` constructor.
-/

/-- One entry of the JSON `data` list in the API response.  It is a JSON
object that may or may not carry a `url` field (a Python dict lookup of a
missing key raises `KeyError`). -/
structure ImageEntry where
  url : Option String
deriving DecidableEq

/-- Parsed JSON body of a successful API response: the `data` key is optional
and, when present, holds a list of entries. -/
structure ApiJson where
  data : Option (List ImageEntry)
deriving DecidableEq

/-- Outcome of the `requests.post` call in `generate_image`, as seen by the
surrounding `try` block: either a 2xx status with a parseable JSON body, or a
`RequestException` (connection error, non-2xx status raised by
`raise_for_status`, malformed JSON body) carrying a message and, when a
response object is attached, its text. -/
inductive PostOutcome where
  | ok (body : ApiJson)
  | requestError (msg : String) (respText : Option String)
deriving DecidableEq

/-- Outcome of the `requests.get` call in `download_image`: 2xx with the body
bytes, or any exception. -/
inductive GetOutcome where
  | ok (content : List Nat)
  | requestError (msg : String)
deriving DecidableEq

/-- A JSON value appearing in the request payload. -/
inductive JsonVal where
  | str (s : String)
  | num (n : Nat)
deriving DecidableEq

/-- The HTTP POST request assembled by `generate_image`: endpoint, headers and
JSON payload. -/
structure HttpPost where
  url : String
  headers : List (String × String)
  body : List (String × JsonVal)
deriving DecidableEq

/-- Return value of a Python call that may let an exception escape. -/
inductive PyResult (α : Type) where
  | ok (val : α)
  | exn (name : String)
deriving DecidableEq

/-- The fixed endpoint, `self.base_url` in the source. -/
def base_url : String := "https://x.com/i/grok"

/-- Default `model` argument of `generate_image`. -/
def defaultModel : String := "grok-2-vision-1212"

/-- Default `size` argument of `generate_image`. -/
def defaultSize : String := "1024x1024"

/-- Default `quality` argument of `generate_image`. -/
def defaultQuality : String := "medium"

/-- Default `style` argument of `generate_image`. -/
def defaultStyle : String := "natural"

/-- The `headers` dict built in `generate_image`. -/
def buildHeaders (api_key : String) : List (String × String) :=
  [("Authorization", "Bearer " ++ api_key), ("Content-Type", "application/json")]

/-- The `payload` dict built in `generate_image`, in source order. -/
def buildPayload (prompt model size quality style : String) : List (String × JsonVal) :=
  [("model", JsonVal.str model), ("prompt", JsonVal.str prompt), ("n", JsonVal.num 1),
   ("size", JsonVal.str size), ("quality", JsonVal.str quality), ("style", JsonVal.str style)]

/-- Result of `generate_image`: the single POST request it issued, its Python
return value (`None` on failure) and the messages printed. -/
structure GenResult where
  request : HttpPost
  ret : Option ApiJson
  msgs : List String
deriving DecidableEq

/-- Embedding of `GrokImageGenerator.generate_image`.  The `try` block catches
every `RequestException` (network error, `raise_for_status` on non-2xx,
malformed JSON), prints the error — and the response text when the exception
carries a response — and returns `None`. -/
def generate_image (api_key : String) (net : PostOutcome)
    (prompt model size quality style : String) : GenResult :=
  let req : HttpPost := ⟨base_url, buildHeaders api_key,
    buildPayload prompt model size quality style⟩
  match net with
  | PostOutcome.ok body =>
      ⟨req, some body, ["🎨 Generating image with prompt: " ++ prompt]⟩
  | PostOutcome.requestError msg respText =>
      ⟨req, none,
        ["🎨 Generating image with prompt: " ++ prompt,
         "❌ Error generating image: " ++ msg] ++
          (match respText with
           | some txt => ["Response: " ++ txt]
           | none => [])⟩

/-- Character filter of the sanitizer: `c.isalnum() or c in (' ', '-', '_')`. -/
def isSafeChar (c : Char) : Bool :=
  c.isAlphanum || c == ' ' || c == '-' || c == '_'

/-- Python `str.strip()` on a character list: drop whitespace from both ends. -/
def pythonStripChars (l : List Char) : List Char :=
  ((l.dropWhile Char.isWhitespace).reverse.dropWhile Char.isWhitespace).reverse

/-- The sanitized prompt part, from `download_image`:
`"".join(c for c in prompt[:50] if c.isalnum() or c in (' ', '-', '_')).strip()`
followed by `.replace(' ', '_')`. -/
def sanitizeChars (l : List Char) : List Char :=
  (pythonStripChars ((l.take 50).filter isSafeChar)).map fun c =>
    if c == ' ' then '_' else c

/-- String version of the sanitizer. -/
def sanitizePrompt (s : String) : String := ⟨sanitizeChars s.data⟩

/-- Wall-clock date and time, the value of `datetime.now()`. -/
structure PyDateTime where
  year : Nat
  month : Nat
  day : Nat
  hour : Nat
  minute : Nat
  second : Nat
deriving DecidableEq

/-- The decimal digit character for `n`; only ever applied to `n % 10`. -/
def digitChar (n : Nat) : Char :=
  match n with
  | 0 => '0' | 1 => '1' | 2 => '2' | 3 => '3' | 4 => '4'
  | 5 => '5' | 6 => '6' | 7 => '7' | 8 => '8' | _ => '9'

/-- Character list of `datetime.now().strftime("%Y%m%d_%H%M%S")`: four
zero-padded year digits, then two digits each for month and day, an
underscore, and two digits each for hour, minute, second.  Faithful for every
value `datetime.now()` can produce (year below 10000). -/
def timestampChars (t : PyDateTime) : List Char :=
  [digitChar (t.year / 1000 % 10), digitChar (t.year / 100 % 10),
   digitChar (t.year / 10 % 10), digitChar (t.year % 10),
   digitChar (t.month / 10 % 10), digitChar (t.month % 10),
   digitChar (t.day / 10 % 10), digitChar (t.day % 10), '_',
   digitChar (t.hour / 10 % 10), digitChar (t.hour % 10),
   digitChar (t.minute / 10 % 10), digitChar (t.minute % 10),
   digitChar (t.second / 10 % 10), digitChar (t.second % 10)]

/-- The timestamp string used as the filename prefix. -/
def timestampStr (t : PyDateTime) : String := ⟨timestampChars t⟩

/-- The filename computed in `download_image`:
`f"\x7btimestamp\x7d_\x7bsafe_prompt\x7d.png"`. -/
def imageFilename (t : PyDateTime) (prompt : String) : String :=
  timestampStr t ++ "_" ++ sanitizePrompt prompt ++ ".png"

/-- Result of `download_image`: Python return value (path or `None`), the file
written (path and bytes), and the messages printed. -/
structure DownloadResult where
  ret : Option String
  getUrl : String
  written : Option (String × List Nat)
  msgs : List String
deriving DecidableEq

/-- Embedding of `GrokImageGenerator.download_image`.  The whole body sits in
`try: ... except Exception`, so a failing GET (`raise_for_status` included) or
a failing file write prints an error and returns `None`; nothing escapes.
`writeErr` is the outcome of `open`/`write` on the filesystem. -/
def download_image (download_folder : String) (t : PyDateTime) (net : GetOutcome)
    (writeErr : Option String) (image_url prompt : String) : DownloadResult :=
  let filepath := download_folder ++ "/" ++ imageFilename t prompt
  match net with
  | GetOutcome.requestError msg =>
      ⟨none, image_url, none, ["⬇️  Downloading image...", "❌ Error downloading image: " ++ msg]⟩
  | GetOutcome.ok content =>
      match writeErr with
      | some msg =>
          ⟨none, image_url, none, ["⬇️  Downloading image...", "❌ Error downloading image: " ++ msg]⟩
      | none =>
          ⟨some filepath, image_url, some (filepath, content),
            ["⬇️  Downloading image...", "✓ Image saved: " ++ filepath]⟩

/-- Result of `generate_and_download`: the Python return value (which may be
an escaping exception), the list of `(url, prompt)` argument pairs passed to
`download_image`, the number of POST and GET requests issued, and the messages
printed. -/
structure OrchResult where
  ret : PyResult (Option String)
  downloadCalls : List (String × String)
  posts : Nat
  gets : Nat
  msgs : List String
deriving DecidableEq

/-- Embedding of `GrokImageGenerator.generate_and_download`.  It calls
`generate_image`; when `result and 'data' in result and len(result['data']) > 0`
it evaluates `result['data'][0]['url']` — a `KeyError` escapes when the first
entry has no `url` key, since this function has no `try` block — and passes the
URL to `download_image`; otherwise it prints the no-URL message and returns
`None`. -/
def generate_and_download (api_key download_folder : String) (t : PyDateTime)
    (post : PostOutcome) (get : GetOutcome) (writeErr : Option String)
    (prompt model size quality style : String) : OrchResult :=
  let gen := generate_image api_key post prompt model size quality style
  match gen.ret with
  | some body =>
    match body.data with
    | some (entry :: _) =>
      match entry.url with
      | some image_url =>
        let d := download_image download_folder t get writeErr image_url prompt
        ⟨PyResult.ok d.ret, [(image_url, prompt)], 1, 1, gen.msgs ++ d.msgs⟩
      | none => ⟨PyResult.exn "KeyError", [], 1, 0, gen.msgs⟩
    | some [] => ⟨PyResult.ok none, [], 1, 0, gen.msgs ++ ["❌ No image URL found in response"]⟩
    | none => ⟨PyResult.ok none, [], 1, 0, gen.msgs ++ ["❌ No image URL found in response"]⟩
  | none => ⟨PyResult.ok none, [], 1, 0, gen.msgs ++ ["❌ No image URL found in response"]⟩

/-- Python `str.strip()`. -/
def pyStrip (s : String) : String := ⟨pythonStripChars s.data⟩

/-- Python `str.lower()` (ASCII letters). -/
def pyLower (s : String) : String := ⟨s.data.map Char.toLower⟩

/-- The exit keywords checked by `main`: `['quit', 'exit', 'q']`. -/
def exitWords : List String := ["quit", "exit", "q"]

/-- Inputs and effect outcomes for one iteration of the `while True` loop:
the raw prompt line, the answer to the custom-settings question, the three
override lines, and the outcomes of the network and filesystem operations
reached in this iteration. -/
structure IterInput where
  promptLine : String
  customLine : String
  sizeLine : String
  qualityLine : String
  styleLine : String
  post : PostOutcome
  get : GetOutcome
  writeErr : Option String
  now : PyDateTime
deriving DecidableEq

/-- An override line: stripped, and replaced by the default when empty
(`if size: kwargs['size'] = size`). -/
def overrideOr (line dflt : String) : String :=
  if pyStrip line = "" then dflt else pyStrip line

/-- The effective `size` for an iteration: overridden only when the
custom-settings answer, stripped and lowered, is `y`. -/
def iterSize (it : IterInput) : String :=
  if pyLower (pyStrip it.customLine) = "y" then overrideOr it.sizeLine defaultSize
  else defaultSize

/-- The effective `quality` for an iteration. -/
def iterQuality (it : IterInput) : String :=
  if pyLower (pyStrip it.customLine) = "y" then overrideOr it.qualityLine defaultQuality
  else defaultQuality

/-- The effective `style` for an iteration. -/
def iterStyle (it : IterInput) : String :=
  if pyLower (pyStrip it.customLine) = "y" then overrideOr it.styleLine defaultStyle
  else defaultStyle

/-- The `generator.generate_and_download(prompt, **kwargs)` call made by one
loop iteration that reached it. -/
def iterOrch (api_key folder : String) (it : IterInput) : OrchResult :=
  generate_and_download api_key folder it.now it.post it.get it.writeErr
    (pyStrip it.promptLine) defaultModel (iterSize it) (iterQuality it) (iterStyle it)

/-- How the interactive loop ended: the user typed an exit keyword (`break`),
the supplied input script ran out while the loop was still running, or an
exception escaped `generate_and_download` and crashed the loop.  Each carries
the value of `image_count` at that point. -/
inductive LoopExit where
  | exited (count : Nat)
  | inputExhausted (count : Nat)
  | crashed (exnName : String) (count : Nat)
deriving DecidableEq

/-- Observable trace of the loop: how it ended, how many POST and GET
requests were issued in total, and the status messages printed. -/
structure LoopTrace where
  exit : LoopExit
  posts : Nat
  gets : Nat
  msgs : List String
deriving DecidableEq

/-- Embedding of the `while True` loop of `main`, run over a finite input
script.  Each iteration strips the prompt line; an exit keyword (compared
case-insensitively) breaks out reporting the count; an empty prompt prints a
warning and continues; otherwise `generate_and_download` runs and the success
counter is incremented exactly on a returned path.  An exception escaping
`generate_and_download` crashes the loop. -/
def runLoop (api_key folder : String) : Nat → List IterInput → LoopTrace
  | count, [] => ⟨LoopExit.inputExhausted count, 0, 0, []⟩
  | count, it :: rest =>
    let prompt := pyStrip it.promptLine
    if pyLower prompt ∈ exitWords then
      ⟨LoopExit.exited count, 0, 0,
        ["✓ Generated " ++ toString count ++ " images. Goodbye!"]⟩
    else if prompt = "" then
      let t := runLoop api_key folder count rest
      ⟨t.exit, t.posts, t.gets, "⚠️  Prompt cannot be empty!" :: t.msgs⟩
    else
      let r := iterOrch api_key folder it
      match r.ret with
      | PyResult.exn e => ⟨LoopExit.crashed e count, r.posts, r.gets, r.msgs⟩
      | PyResult.ok (some _) =>
        let t := runLoop api_key folder (count + 1) rest
        ⟨t.exit, r.posts + t.posts, r.gets + t.gets,
          r.msgs ++ ("✅ Success! Total images generated: " ++ toString (count + 1)) :: t.msgs⟩
      | PyResult.ok none =>
        let t := runLoop api_key folder count rest
        ⟨t.exit, r.posts + t.posts, r.gets + t.gets,
          r.msgs ++ "⚠️  Failed to generate/download image. Please try again." :: t.msgs⟩

/-- Interactive input consumed by `main` before the loop, and the loop
script. -/
structure MainInput where
  apiKeyLine : String
  folderLine : String
  iters : List IterInput
deriving DecidableEq

/-- Observable trace of `main`: download folders created (by the
`GrokImageGenerator` constructor), the loop trace when the loop was reached,
and the status messages printed (banner and option listings omitted). -/
structure MainResult where
  foldersCreated : List String
  loop : Option LoopTrace
  msgs : List String
deriving DecidableEq

/-- Embedding of `main`: reads and strips the API key, returning at once with
an error when it is empty; otherwise reads the folder name (defaulting to
`grok_images`), constructs `GrokImageGenerator` — whose constructor creates
the download folder — and enters the loop with `image_count = 0`. -/
def mainProgram (inp : MainInput) : MainResult :=
  let api_key := pyStrip inp.apiKeyLine
  if api_key = "" then
    ⟨[], none, ["❌ API key is required!"]⟩
  else
    let folder := if pyStrip inp.folderLine = "" then "grok_images" else pyStrip inp.folderLine
    let t := runLoop api_key folder 0 inp.iters
    ⟨[folder], some t,
      ("✓ Download folder created/verified: " ++ folder) :: t.msgs⟩

/-- A concrete loop iteration whose prompt is an exit keyword with different
letter case. -/
def itQuit : IterInput :=
  ⟨"Quit", "", "", "", "", PostOutcome.requestError "never reached" none,
   GetOutcome.requestError "never reached", none, ⟨2026, 10, 12, 3, 4, 5⟩⟩

/-- A concrete loop iteration whose prompt line is blank. -/
def itEmpty : IterInput :=
  ⟨"   ", "", "", "", "", PostOutcome.requestError "never reached" none,
   GetOutcome.requestError "never reached", none, ⟨2026, 10, 12, 3, 4, 5⟩⟩

/-- A concrete loop iteration whose generation POST fails with a network
error. -/
def itFail : IterInput :=
  ⟨"a cat", "", "", "", "", PostOutcome.requestError "Connection refused" none,
   GetOutcome.requestError "never reached", none, ⟨2026, 10, 12, 3, 4, 5⟩⟩

/-- Characters surviving `dropWhile` are characters of the original list. -/
theorem mem_of_mem_dropWhile {α : Type} {p : α → Bool} {l : List α} {a : α}
    (h : a ∈ l.dropWhile p) : a ∈ l :=
  (List.dropWhile_suffix p).subset h

/-- Characters surviving a Python strip are characters of the original list. -/
theorem mem_of_mem_strip {l : List Char} {c : Char} (h : c ∈ pythonStripChars l) : c ∈ l := by
  unfold pythonStripChars at h
  rw [List.mem_reverse] at h
  have h2 := mem_of_mem_dropWhile h
  rw [List.mem_reverse] at h2
  exact mem_of_mem_dropWhile h2

/-- Every character produced by `digitChar` is a decimal digit. -/
theorem digitChar_isDigit (n : Nat) : (digitChar n).isDigit = true := by
  unfold digitChar
  split <;> decide

/-- Every character of the sanitized prompt part is alphanumeric, an
underscore or a hyphen — and in particular not a space. -/
theorem sanitizeChars_safe (l : List Char) :
    ∀ c ∈ sanitizeChars l, (c.isAlphanum = true ∨ c = '_' ∨ c = '-') ∧ c ≠ ' ' := by
  intro c hc
  simp only [sanitizeChars, List.mem_map] at hc
  obtain ⟨a, ha, rfl⟩ := hc
  have ha2 : a ∈ (l.take 50).filter isSafeChar := mem_of_mem_strip ha
  have hsafe : isSafeChar a = true := (List.mem_filter.mp ha2).2
  by_cases hsp : a = ' '
  · subst hsp
    decide
  · have hbeq : (a == ' ') = false := beq_eq_false_iff_ne.mpr hsp
    simp only [hbeq, Bool.false_eq_true, if_false]
    refine ⟨?_, hsp⟩
    simp only [isSafeChar, Bool.or_eq_true, beq_iff_eq] at hsafe
    rcases hsafe with ((h1 | h2) | h3) | h4
    · exact Or.inl h1
    · exact absurd h2 hsp
    · exact Or.inr (Or.inr h3)
    · exact Or.inr (Or.inl h4)

/-- C3: for every non-empty prompt, the filename computed by `download_image`
is a `YYYYMMDD_HHMMSS` timestamp (fifteen characters, digits around an
underscore), an underscore, the sanitized prompt part, and the suffix `.png`;
the sanitized part holds only alphanumerics, underscores and hyphens, and no
space. -/
theorem C3_filename_format (t : PyDateTime) (prompt : String) (h : prompt ≠ "") :
    imageFilename t prompt = timestampStr t ++ "_" ++ sanitizePrompt prompt ++ ".png" ∧
    (timestampStr t).length = 15 ∧
    (∀ c ∈ (timestampStr t).data, c.isDigit = true ∨ c = '_') ∧
    ∀ c ∈ (sanitizePrompt prompt).data,
      (c.isAlphanum = true ∨ c = '_' ∨ c = '-') ∧ c ≠ ' ' := by
  refine ⟨rfl, rfl, ?_, ?_⟩
  · intro c hc
    simp only [timestampStr, timestampChars, List.mem_cons, List.not_mem_nil, or_false] at hc
    rcases hc with rfl | rfl | rfl | rfl | rfl | rfl | rfl | rfl | rfl | rfl | rfl | rfl |
        rfl | rfl | rfl <;>
      first
        | exact Or.inl (digitChar_isDigit _)
        | exact Or.inr rfl
  · exact fun c hc => sanitizeChars_safe _ c hc

/-- C3 witness: the property at a concrete date and the prompt of the
end-to-end scenario of the spec. -/
theorem C3_filename_format_witness :
    ("A red fox in snow" : String) ≠ "" ∧
    ∀ c ∈ (sanitizePrompt "A red fox in snow").data,
      (c.isAlphanum = true ∨ c = '_' ∨ c = '-') ∧ c ≠ ' ' :=
  ⟨by decide,
   (C3_filename_format ⟨2026, 10, 12, 3, 4, 5⟩ "A red fox in snow" (by decide)).2.2.2⟩

/-- C4: two prompts agreeing on their first fifty characters sanitize to the
same string and give the same download filename; characters at index fifty
and beyond never influence it. -/
theorem C4_truncation (t : PyDateTime) (p q : String)
    (h : p.data.take 50 = q.data.take 50) :
    sanitizePrompt p = sanitizePrompt q ∧ imageFilename t p = imageFilename t q := by
  have hs : sanitizePrompt p = sanitizePrompt q := by
    unfold sanitizePrompt sanitizeChars
    rw [h]
  refine ⟨hs, ?_⟩
  unfold imageFilename
  rw [hs]

/-- C4 witness: two fifty-three and fifty-one character prompts sharing the
first fifty characters. -/
theorem C4_truncation_witness :
    ("aaaaaaaaaaaaaaaaaaaaaaaaaaaaaaaaaaaaaaaaaaaaaaaaaaXYZ" : String).data.take 50 =
      ("aaaaaaaaaaaaaaaaaaaaaaaaaaaaaaaaaaaaaaaaaaaaaaaaaaQ" : String).data.take 50 ∧
    sanitizePrompt "aaaaaaaaaaaaaaaaaaaaaaaaaaaaaaaaaaaaaaaaaaaaaaaaaaXYZ" =
      sanitizePrompt "aaaaaaaaaaaaaaaaaaaaaaaaaaaaaaaaaaaaaaaaaaaaaaaaaaQ" :=
  ⟨by decide,
   (C4_truncation ⟨2026, 10, 12, 3, 4, 5⟩
      "aaaaaaaaaaaaaaaaaaaaaaaaaaaaaaaaaaaaaaaaaaaaaaaaaaXYZ"
      "aaaaaaaaaaaaaaaaaaaaaaaaaaaaaaaaaaaaaaaaaaaaaaaaaaQ" (by decide)).1⟩

/-- When no character of the first fifty is alphanumeric, a hyphen or an
underscore, the filter keeps only spaces and the strip erases them all. -/
theorem sanitizeChars_nil (l : List Char)
    (h : ∀ c ∈ l.take 50, ¬(c.isAlphanum = true ∨ c = '-' ∨ c = '_')) :
    sanitizeChars l = [] := by
  have hall : ∀ c ∈ (l.take 50).filter isSafeChar, Char.isWhitespace c = true := by
    intro c hc
    obtain ⟨hmem, hsafe⟩ := List.mem_filter.mp hc
    simp only [isSafeChar, Bool.or_eq_true, beq_iff_eq] at hsafe
    rcases hsafe with ((h1 | h2) | h3) | h4
    · exact absurd (Or.inl h1) (h c hmem)
    · subst h2; decide
    · exact absurd (Or.inr (Or.inl h3)) (h c hmem)
    · exact absurd (Or.inr (Or.inr h4)) (h c hmem)
  unfold sanitizeChars pythonStripChars
  rw [List.dropWhile_eq_nil_iff.mpr hall]
  rfl

/-- C10: a non-empty prompt whose first fifty characters hold no
alphanumeric, hyphen or underscore sanitizes to the empty string; the
download still proceeds and, when GET and write succeed, returns the path
`folder/<timestamp>_.png`. -/
theorem C10_punctuation_prompt (folder : String) (t : PyDateTime)
    (content : List Nat) (url p : String) (h1 : p ≠ "")
    (h2 : ∀ c ∈ p.data.take 50, ¬(c.isAlphanum = true ∨ c = '-' ∨ c = '_')) :
    sanitizePrompt p = "" ∧
    imageFilename t p = timestampStr t ++ "_" ++ ".png" ∧
    (download_image folder t (GetOutcome.ok content) none url p).ret =
      some (folder ++ "/" ++ (timestampStr t ++ "_" ++ ".png")) := by
  have hs : sanitizePrompt p = "" := by
    unfold sanitizePrompt
    rw [sanitizeChars_nil p.data h2]
  have hf : imageFilename t p = timestampStr t ++ "_" ++ ".png" := by
    unfold imageFilename
    rw [hs]
    simp
  refine ⟨hs, hf, ?_⟩
  simp only [download_image]
  rw [hf]

/-- C10 witness: a pure-punctuation prompt at a concrete date. -/
theorem C10_punctuation_prompt_witness :
    sanitizePrompt "?!.,;:" = "" ∧
    (download_image "imgs" ⟨2026, 10, 12, 3, 4, 5⟩ (GetOutcome.ok [7]) none
      "http://example/img.png" "?!.,;:").ret =
      some ("imgs" ++ "/" ++ (timestampStr ⟨2026, 10, 12, 3, 4, 5⟩ ++ "_" ++ ".png")) :=
  ⟨(C10_punctuation_prompt "imgs" ⟨2026, 10, 12, 3, 4, 5⟩ [7] "http://example/img.png"
      "?!.,;:" (by decide) (by decide)).1,
   (C10_punctuation_prompt "imgs" ⟨2026, 10, 12, 3, 4, 5⟩ [7] "http://example/img.png"
      "?!.,;:" (by decide) (by decide)).2.2⟩

/-- C1: when the response body has a `data` list with at least one entry
carrying a URL, `generate_and_download` calls `download_image` exactly once,
with the first entry's URL; when the list is empty or missing (a request
failure included), `download_image` is never called, the no-URL message is
printed, and the result is `None`. -/
theorem C1_orchestration (api_key folder : String) (t : PyDateTime) (post : PostOutcome)
    (get : GetOutcome) (wErr : Option String) (prompt model size quality style : String) :
    (∀ body entry rest u, post = PostOutcome.ok body → body.data = some (entry :: rest) →
      entry.url = some u →
      (generate_and_download api_key folder t post get wErr prompt model size quality
        style).downloadCalls = [(u, prompt)]) ∧
    (∀ body, post = PostOutcome.ok body → (body.data = none ∨ body.data = some []) →
      (generate_and_download api_key folder t post get wErr prompt model size quality
        style).downloadCalls = [] ∧
      (generate_and_download api_key folder t post get wErr prompt model size quality
        style).ret = PyResult.ok none ∧
      "❌ No image URL found in response" ∈
        (generate_and_download api_key folder t post get wErr prompt model size quality
          style).msgs) ∧
    (∀ m rt, post = PostOutcome.requestError m rt →
      (generate_and_download api_key folder t post get wErr prompt model size quality
        style).downloadCalls = [] ∧
      (generate_and_download api_key folder t post get wErr prompt model size quality
        style).ret = PyResult.ok none ∧
      "❌ No image URL found in response" ∈
        (generate_and_download api_key folder t post get wErr prompt model size quality
          style).msgs) := by
  refine ⟨?_, ?_, ?_⟩
  · rintro body entry rest u rfl hdata hurl
    simp [generate_and_download, generate_image, hdata, hurl]
  · rintro body rfl (hdata | hdata) <;>
      simp [generate_and_download, generate_image, hdata]
  · rintro m rt rfl
    simp [generate_and_download, generate_image]

/-- C1 witness: a successful response with one entry leads to exactly one
download call with that entry's URL. -/
theorem C1_orchestration_witness :
    (generate_and_download "key0" "imgs" ⟨2026, 10, 12, 3, 4, 5⟩
      (PostOutcome.ok ⟨some [⟨some "http://example/img.png"⟩]⟩)
      (GetOutcome.ok [80, 78, 71]) none "fox" defaultModel defaultSize defaultQuality
      defaultStyle).downloadCalls = [("http://example/img.png", "fox")] :=
  (C1_orchestration "key0" "imgs" ⟨2026, 10, 12, 3, 4, 5⟩
      (PostOutcome.ok ⟨some [⟨some "http://example/img.png"⟩]⟩)
      (GetOutcome.ok [80, 78, 71]) none "fox" defaultModel defaultSize defaultQuality
      defaultStyle).1 ⟨some [⟨some "http://example/img.png"⟩]⟩
    ⟨some "http://example/img.png"⟩ [] "http://example/img.png" rfl rfl rfl

/-- C2 counterexample: a 2xx response whose first `data` entry has no `url`
key makes `result['data'][0]['url']` raise `KeyError` outside any `try`
block: the exception escapes `generate_and_download` and crashes the
interactive loop. -/
theorem C2_counterexample :
    (generate_and_download "key0" "imgs" ⟨2026, 10, 12, 3, 4, 5⟩
      (PostOutcome.ok ⟨some [⟨none⟩]⟩) (GetOutcome.ok []) none "p" defaultModel
      defaultSize defaultQuality defaultStyle).ret = PyResult.exn "KeyError" ∧
    (runLoop "key0" "imgs" 0 [⟨"p", "", "", "", "", PostOutcome.ok ⟨some [⟨none⟩]⟩,
      GetOutcome.ok [], none, ⟨2026, 10, 12, 3, 4, 5⟩⟩]).exit =
      LoopExit.crashed "KeyError" 0 := by
  exact ⟨rfl, rfl⟩

/-- C2 amended: as long as every non-empty `data` list starts with an entry
that has a `url` field, no exception escapes `generate_and_download`: network
errors, non-2xx statuses and malformed bodies on the POST are caught inside
`generate_image`, and GET or filesystem failures inside `download_image`, each
converted into a `None` result. -/
theorem C2_no_uncaught_exception (api_key folder : String) (t : PyDateTime)
    (post : PostOutcome) (get : GetOutcome) (wErr : Option String)
    (prompt model size quality style : String)
    (h : ∀ body entry rest, post = PostOutcome.ok body →
      body.data = some (entry :: rest) → entry.url.isSome = true) :
    ∃ v, (generate_and_download api_key folder t post get wErr prompt model size quality
      style).ret = PyResult.ok v := by
  cases post with
  | requestError m rt =>
    exact ⟨none, by simp [generate_and_download, generate_image]⟩
  | ok body =>
    cases hdata : body.data with
    | none => exact ⟨none, by simp [generate_and_download, generate_image, hdata]⟩
    | some l =>
      cases l with
      | nil => exact ⟨none, by simp [generate_and_download, generate_image, hdata]⟩
      | cons entry rest =>
        have hu := h body entry rest rfl hdata
        cases hurl : entry.url with
        | none => rw [hurl] at hu; simp at hu
        | some u =>
          exact ⟨(download_image folder t get wErr u prompt).ret,
            by simp [generate_and_download, generate_image, hdata, hurl]⟩

/-- C2 amended witness: a network failure on the POST is absorbed into a
`None` result. -/
theorem C2_no_uncaught_exception_witness :
    ∃ v, (generate_and_download "key0" "imgs" ⟨2026, 10, 12, 3, 4, 5⟩
      (PostOutcome.requestError "Connection refused" none) (GetOutcome.ok []) none "p"
      defaultModel defaultSize defaultQuality defaultStyle).ret = PyResult.ok v :=
  C2_no_uncaught_exception "key0" "imgs" ⟨2026, 10, 12, 3, 4, 5⟩
    (PostOutcome.requestError "Connection refused" none) (GetOutcome.ok []) none "p"
    defaultModel defaultSize defaultQuality defaultStyle
    (fun body entry rest h1 _ => nomatch h1)

/-- C5: in an iteration that reaches the generation call, the success counter
carried into the rest of the loop is unchanged when `generate_and_download`
returns `None` and incremented exactly when it returns a file path. -/
theorem C5_success_counter (api_key folder : String) (count : Nat) (it : IterInput)
    (rest : List IterInput)
    (h1 : pyLower (pyStrip it.promptLine) ∉ exitWords)
    (h2 : pyStrip it.promptLine ≠ "") :
    ((iterOrch api_key folder it).ret = PyResult.ok none →
      (runLoop api_key folder count (it :: rest)).exit =
        (runLoop api_key folder count rest).exit) ∧
    (∀ path, (iterOrch api_key folder it).ret = PyResult.ok (some path) →
      (runLoop api_key folder count (it :: rest)).exit =
        (runLoop api_key folder (count + 1) rest).exit) := by
  constructor
  · intro hret
    simp [runLoop, h1, h2, hret]
  · intro path hret
    simp [runLoop, h1, h2, hret]

/-- C5 witness: a network failure on the POST leaves the counter untouched. -/
theorem C5_success_counter_witness :
    pyStrip itFail.promptLine ≠ "" ∧
    (iterOrch "key0" "imgs" itFail).ret = PyResult.ok none ∧
    (runLoop "key0" "imgs" 0 [itFail]).exit = (runLoop "key0" "imgs" 0 []).exit :=
  ⟨by decide, by decide,
   (C5_success_counter "key0" "imgs" 0 itFail [] (by decide) (by decide)).1 (by decide)⟩

/-- C6: a prompt line that strips and lowercases to an exit keyword ends the
loop at once: the reported count is the current one and no further POST or
GET request is issued. -/
theorem C6_exit_keyword (api_key folder : String) (count : Nat) (it : IterInput)
    (rest : List IterInput) (h : pyLower (pyStrip it.promptLine) ∈ exitWords) :
    runLoop api_key folder count (it :: rest) =
      ⟨LoopExit.exited count, 0, 0,
        ["✓ Generated " ++ toString count ++ " images. Goodbye!"]⟩ := by
  simp [runLoop, h]

/-- C6 witness: typing `Quit` as the first prompt reports zero generated
images and makes no network call. -/
theorem C6_exit_keyword_witness :
    runLoop "key0" "imgs" 0 [itQuit] =
      ⟨LoopExit.exited 0, 0, 0,
        ["✓ Generated " ++ toString 0 ++ " images. Goodbye!"]⟩ :=
  C6_exit_keyword "key0" "imgs" 0 itQuit [] (by decide)

/-- C7: an empty prompt line prints the warning and goes back to the prompt:
the iteration adds no POST or GET request, the counter is unchanged and the
loop continues on the remaining input. -/
theorem C7_empty_prompt (api_key folder : String) (count : Nat) (it : IterInput)
    (rest : List IterInput) (h : pyStrip it.promptLine = "") :
    runLoop api_key folder count (it :: rest) =
      ⟨(runLoop api_key folder count rest).exit,
       (runLoop api_key folder count rest).posts,
       (runLoop api_key folder count rest).gets,
       "⚠️  Prompt cannot be empty!" :: (runLoop api_key folder count rest).msgs⟩ := by
  have hne : pyLower "" ∉ exitWords := by decide
  simp [runLoop, h, hne]

/-- C7 witness: a blank prompt line on a one-line script. -/
theorem C7_empty_prompt_witness :
    runLoop "key0" "imgs" 0 [itEmpty] =
      ⟨(runLoop "key0" "imgs" 0 []).exit,
       (runLoop "key0" "imgs" 0 []).posts,
       (runLoop "key0" "imgs" 0 []).gets,
       "⚠️  Prompt cannot be empty!" :: (runLoop "key0" "imgs" 0 []).msgs⟩ :=
  C7_empty_prompt "key0" "imgs" 0 itEmpty [] (by decide)

/-- C8: the POST request of `generate_image` goes to the fixed endpoint with
the bearer-token and JSON content-type headers, and its body holds exactly
the keys `model`, `prompt`, `n`, `size`, `quality`, `style`, with `n` equal
to 1 and `prompt` equal to the prompt. -/
theorem C8_request_shape (api_key prompt model size quality style : String)
    (net : PostOutcome) :
    (generate_image api_key net prompt model size quality style).request.url = base_url ∧
    (generate_image api_key net prompt model size quality style).request.headers =
      [("Authorization", "Bearer " ++ api_key), ("Content-Type", "application/json")] ∧
    (generate_image api_key net prompt model size quality style).request.body.map
      Prod.fst = ["model", "prompt", "n", "size", "quality", "style"] ∧
    List.lookup "n" (generate_image api_key net prompt model size quality
      style).request.body = some (JsonVal.num 1) ∧
    List.lookup "prompt" (generate_image api_key net prompt model size quality
      style).request.body = some (JsonVal.str prompt) := by
  cases net <;> exact ⟨rfl, rfl, rfl, rfl, rfl⟩

/-- C9: an API key that strips to the empty string makes `main` print the
error and return at once: no folder is created, and the loop — hence any
network call — is never reached. -/
theorem C9_empty_api_key (inp : MainInput) (h : pyStrip inp.apiKeyLine = "") :
    mainProgram inp = ⟨[], none, ["❌ API key is required!"]⟩ := by
  simp [mainProgram, h]

/-- C9 witness: a whitespace-only API key line. -/
theorem C9_empty_api_key_witness :
    mainProgram ⟨"   ", "folder", []⟩ = ⟨[], none, ["❌ API key is required!"]⟩ :=
  C9_empty_api_key ⟨"   ", "folder", []⟩ (by decide)
